import Mathlib

set_option autoImplicit false

/-!
Shallow embedding of the client-side event reconciler of the
`nfactorial-multi-agent-example` repository
(`ui/src/hooks/useWebSocket.ts` — `handleWSMessage`, and the
`SubAgentCarousel` helpers — `parseFinalOutput`, batch percentage).

JavaScript runtime values that the code inspects dynamically are modelled
by the inductive type `JsVal`.  Optional-chained member access (`x?.f`),
array indexing (`x?.[0]`), truthiness, strict string comparison and JS
`Math.round` are each given a Lean counterpart.  JS objects used as
ordered string-keyed maps (`tool_calls`, the sub-agent registry) are
modelled by association lists with JS object-key semantics: updating an
existing key keeps its position, a new key is appended.

React state plus the mirror refs (`thinkingRef`, `subAgentProgressRef`,
`processedTasksRef`) are collapsed into one `WSState` record: the refs are
kept in lock-step with the state by the hook, and event processing is
single-threaded (spec §5), so one state cell is the faithful abstraction.
`setTimeout`-based auto-clearing of the steering status and the
nondeterministic `Date.now()` message ids / timestamps are outside the
state transition proper and are not modelled.
-/

namespace MultiAgent

/-- Model of a dynamically typed JavaScript value. -/
inductive JsVal : Type where
  | null : JsVal
  | jsUndefined : JsVal
  | str : String → JsVal
  | num : ℚ → JsVal
  | jsbool : Bool → JsVal
  | arr : List JsVal → JsVal
  | obj : List (String × JsVal) → JsVal

namespace JsVal

/-- Field lookup in a JS object literal: first binding wins. -/
def getField : List (String × JsVal) → String → JsVal
  | [], _ => .jsUndefined
  | (k, v) :: rest, f => if k = f then v else getField rest f

/-- Optional-chained member access `x?.f`: `undefined` on `null`/`undefined`
and on primitives/arrays (none of the accessed names is a built-in
property of those), the field (or `undefined`) on objects. -/
def dot : JsVal → String → JsVal
  | .obj fields, f => getField fields f
  | _, _ => .jsUndefined

/-- Optional-chained index access `x?.[0]`. -/
def idx0 : JsVal → JsVal
  | .arr (v :: _) => v
  | .arr [] => .jsUndefined
  | .obj fields => getField fields "0"
  | .str s => match s.data with
      | c :: _ => .str (String.mk [c])
      | [] => .jsUndefined
  | _ => .jsUndefined

/-- JS truthiness. -/
def truthy : JsVal → Bool
  | .null => false
  | .jsUndefined => false
  | .str s => s ≠ ""
  | .num q => q ≠ 0
  | .jsbool b => b
  | .arr _ => true
  | .obj _ => true

/-- `x === "lit"` for a string literal. -/
def isStrEq (v : JsVal) (s : String) : Bool :=
  match v with
  | .str t => t = s
  | _ => false

def isStr : JsVal → Bool
  | .str _ => true
  | _ => false

def isNum : JsVal → Bool
  | .num _ => true
  | _ => false

def isUndefined : JsVal → Bool
  | .jsUndefined => true
  | _ => false

/-- `x ?? y` / `x !== undefined && x !== null` discriminator. -/
def isNullish : JsVal → Bool
  | .null => true
  | .jsUndefined => true
  | _ => false

/-- `Array.isArray` as a partial projection. -/
def asArr : JsVal → Option (List JsVal)
  | .arr xs => some xs
  | _ => none

/-- JS string coercion used when a value becomes an object key
(`tool_calls[toolCall.id]`, `updated[id]`).  Exact for strings — the only
case the event stream produces; the remaining cases abbreviate JS's
`ToString` (number formatting, array joining) without affecting any
property proved below. -/
def jsKey : JsVal → String
  | .str s => s
  | .jsUndefined => "undefined"
  | .null => "null"
  | .jsbool true => "true"
  | .jsbool false => "false"
  | .num q => toString q.num ++ (if q.den = 1 then "" else "/" ++ toString q.den)
  | .arr _ => ""
  | .obj _ => "[object Object]"

/-- Best-effort model of `JSON.stringify`, used only to build the text of a
fallback transcript message (no claim inspects that text). -/
def stringify : JsVal → String
  | .null => "null"
  | .jsUndefined => "undefined"
  | .str s => "\x22" ++ s ++ "\x22"
  | .num q => toString q.num ++ (if q.den = 1 then "" else "/" ++ toString q.den)
  | .jsbool true => "true"
  | .jsbool false => "false"
  | .arr _ => "[...]"
  | .obj _ => "\x7b...\x7d"

end JsVal

open JsVal

/-- JS object-as-map: lookup. -/
def getKey {α : Type} (m : List (String × α)) (k : String) : Option α :=
  (m.find? (fun p => p.1 = k)).map (·.2)

/-- JS object-as-map: `m[k] = v`.  An existing key keeps its position, a
new key is appended (JS property insertion order). -/
def setKey {α : Type} (m : List (String × α)) (k : String) (v : α) : List (String × α) :=
  match m with
  | [] => [(k, v)]
  | (k', v') :: rest => if k' = k then (k, v) :: rest else (k', v') :: setKey rest k v

/-- Status of one tool call (`'started' | 'completed' | 'failed'`). -/
inductive TCStatus : Type where
  | started : TCStatus
  | completed : TCStatus
  | failed : TCStatus
deriving DecidableEq

/-- One `ToolCall` record.  All fields are `Option` because the
`completed`/`failed` merge path can create an entry by spreading
`undefined`, which yields an object carrying only the fields written by
that merge. -/
structure ToolCallEntry : Type where
  id : Option JsVal := none
  tool_name : Option JsVal := none
  arguments : Option JsVal := none
  status : Option TCStatus := none
  result : Option JsVal := none
  error : Option JsVal := none

/-- `ThinkingProgress` — the per-task aggregate. -/
structure ThinkingProgress : Type where
  task_id : String
  tool_calls : List (String × ToolCallEntry)
  is_complete : Bool
  final_output : Option JsVal := none
  error : Option JsVal := none

/-- One transcript message (the `Date.now()` id and timestamp are not
part of the state transition and are omitted). -/
structure Message : Type where
  role : String
  content : JsVal
  thinking : Option ThinkingProgress := none

/-- An incoming `AgentEvent` frame. -/
structure AgentEvent : Type where
  task_id : String
  event_type : String
  data : JsVal := .jsUndefined
  error : JsVal := .jsUndefined
  progress : JsVal := .jsUndefined

/-- The combined hook state. -/
structure WSState : Type where
  messages : List Message
  currentThinking : Option ThinkingProgress
  loading : Bool
  currentTaskId : Option String
  cancelling : Bool
  steering : Bool
  steerMode : Bool
  steeringStatus : Option String
  subAgentProgress : List (String × ThinkingProgress)
  researchProgress : Option JsVal
  processedTasks : List String

end MultiAgent

namespace MultiAgent

open JsVal

/-- The empty `ThinkingProgress` created for a fresh task id
(`{ task_id, tool_calls: {}, is_complete: false }`). -/
def emptyProgress (tid : String) : ThinkingProgress :=
  { task_id := tid, tool_calls := [], is_complete := false }

/-- `updateSubAgentThinking`: read `prev[taskId] ?? null`, run the updater,
drop the update when it returns `null`, else write back under `taskId`. -/
def updateSubAgent (st : WSState) (tid : String)
    (f : Option ThinkingProgress → Option ThinkingProgress) : WSState :=
  match f (getKey st.subAgentProgress tid) with
  | none => st
  | some next => { st with subAgentProgress := setKey st.subAgentProgress tid next }

/-- `updateThinking`: run the updater on the current main-task progress and
store the result (including `null`). -/
def updateThinking (st : WSState)
    (f : Option ThinkingProgress → Option ThinkingProgress) : WSState :=
  { st with currentThinking := f st.currentThinking }

/-- `processedTasksRef.current.add(taskId)` — set insertion. -/
def addProcessed (l : List String) (tid : String) : List String :=
  if l.contains tid then l else l ++ [tid]

/-- The `ToolCall` written by a `started` event: a fresh object (replacing,
not merging, any previous entry) with captured name/arguments.  The source
reads `toolCall.function.name` / `.arguments` with strict access; on the
well-formed payloads considered here this agrees with the optional access
modelled by `dot`. -/
def startedEntry (toolCall : JsVal) : ToolCallEntry :=
  { id := some (toolCall.dot "id")
  , tool_name := some ((toolCall.dot "function").dot "name")
  , arguments := some ((toolCall.dot "function").dot "arguments")
  , status := some .started }

/-- The `completed` merge `{...prev.tool_calls[id], status:'completed',
result: output_data}`; spreading a missing entry spreads `undefined`,
i.e. starts from the empty record. -/
def mergeCompleted (tc : List (String × ToolCallEntry)) (key : String)
    (out : JsVal) : List (String × ToolCallEntry) :=
  let prevE := (getKey tc key).getD {}
  setKey tc key { prevE with status := some .completed, result := some out }

/-- The `failed` merge `{...prev.tool_calls[id], status:'failed',
error: event.error}`. -/
def mergeFailed (tc : List (String × ToolCallEntry)) (key : String)
    (err : JsVal) : List (String × ToolCallEntry) :=
  let prevE := (getKey tc key).getD {}
  setKey tc key { prevE with status := some .failed, error := some err }

/-- `updated[id] = {task_id: id, tool_calls: {}, is_complete: false}` for
every id whose key is not yet present (existing entries are objects, hence
truthy, so `!updated[id]` is exactly "key absent"). -/
def addMissing (reg : List (String × ThinkingProgress)) (ids : List JsVal) :
    List (String × ThinkingProgress) :=
  ids.foldl (fun acc v =>
    let k := jsKey v
    match getKey acc k with
    | some _ => acc
    | none => setKey acc k (emptyProgress k)) reg

/-- The sub-agent branch of `handleWSMessage` (taken when
`subAgentProgressRef.current[event.task_id]` is truthy).  The
`batch_progress` and `batch_completed` cases only bind local constants and
have no `break`, so they fall through into the
`progress_update_tool_action_started` case. -/
def subAgentBranch (ev : AgentEvent) (st : WSState) : WSState :=
  if ev.event_type = "batch_progress" ∨ ev.event_type = "batch_completed"
      ∨ ev.event_type = "progress_update_tool_action_started" then
    let toolCall := (ev.data.dot "args").idx0
    if toolCall.truthy then
      updateSubAgent st ev.task_id (fun prev =>
        let base := prev.getD (emptyProgress ev.task_id)
        let tc := setKey base.tool_calls (jsKey (toolCall.dot "id")) (startedEntry toolCall)
        some { base with tool_calls := tc })
    else st
  else if ev.event_type = "progress_update_tool_action_completed" then
    let resp := ev.data.dot "result"
    let toolCall := resp.dot "tool_call"
    if toolCall.truthy then
      updateSubAgent st ev.task_id (fun prev =>
        match prev with
        | none => none
        | some p =>
            let tc := mergeCompleted p.tool_calls (jsKey (toolCall.dot "id")) (resp.dot "output_data")
            some { p with tool_calls := tc })
    else st
  else if ev.event_type = "progress_update_tool_action_failed" then
    let toolCall := (ev.data.dot "args").idx0
    if toolCall.truthy then
      updateSubAgent st ev.task_id (fun prev =>
        match prev with
        | none => none
        | some p =>
            let tc := mergeFailed p.tool_calls (jsKey (toolCall.dot "id")) ev.error
            some { p with tool_calls := tc })
    else st
  else if ev.event_type = "progress_update_completion_failed" then
    updateSubAgent st ev.task_id (fun prev =>
      prev.map (fun p => { p with error := some ev.error }))
  else if ev.event_type = "agent_output" then
    let st1 := updateSubAgent st ev.task_id (fun prev =>
      prev.map (fun p => { p with is_complete := true, final_output := some ev.data }))
    { st1 with processedTasks := addProcessed st1.processedTasks ev.task_id }
  else if ev.event_type = "run_cancelled" then
    let st1 := updateSubAgent st ev.task_id (fun prev =>
      prev.map (fun p =>
        { p with is_complete := true, error := some (JsVal.str "Task cancelled by user") }))
    { st1 with processedTasks := addProcessed st1.processedTasks ev.task_id }
  else if ev.event_type = "run_failed" then
    let st1 := updateSubAgent st ev.task_id (fun prev =>
      prev.map (fun p =>
        let e := if ev.error.truthy then ev.error
                 else JsVal.str "Agent failed to complete the task"
        { p with is_complete := true, error := some e }))
    { st1 with processedTasks := addProcessed st1.processedTasks ev.task_id }
  else st

/-- `setMessages` inside the main `agent_output` case, second call:
`[...prev.slice(0,-1), {...last, thinking: finished}]` (the list is known
to be non-empty there, a message was just appended). -/
def replaceLastThinking (msgs : List Message) (t : ThinkingProgress) : List Message :=
  match msgs.getLast? with
  | some last => msgs.dropLast ++ [{ last with thinking := some t }]
  | none => msgs

/-- The main-scope switch of `handleWSMessage` (after the batch-level
switch has not matched). -/
def mainBranch (ev : AgentEvent) (st : WSState) : WSState :=
  if ev.event_type = "progress_update_tool_action_started" then
    let toolCall := (ev.data.dot "args").idx0
    if toolCall.truthy then
      updateThinking st (fun prev =>
        let base := prev.getD (emptyProgress ev.task_id)
        let tc := setKey base.tool_calls (jsKey (toolCall.dot "id")) (startedEntry toolCall)
        some { base with tool_calls := tc })
    else st
  else if ev.event_type = "progress_update_tool_action_completed" then
    let resp := ev.data.dot "result"
    let toolCall := resp.dot "tool_call"
    if toolCall.truthy then
      let st1 := updateThinking st (fun prev =>
        match prev with
        | none => none
        | some p =>
            let tc := mergeCompleted p.tool_calls (jsKey (toolCall.dot "id")) (resp.dot "output_data")
            some { p with tool_calls := tc })
      if (((resp.dot "tool_call").dot "function").dot "name").isStrEq "research" then
        match (resp.dot "output_data").asArr with
        | some ids =>
          let st2 := { st1 with researchProgress := some (JsVal.num 0) }
          { st2 with subAgentProgress := addMissing st2.subAgentProgress ids }
        | none => st1
      else st1
    else st
  else if ev.event_type = "progress_update_tool_action_failed" then
    let toolCall := (ev.data.dot "args").idx0
    if toolCall.truthy then
      updateThinking st (fun prev =>
        match prev with
        | none => none
        | some p =>
            let tc := mergeFailed p.tool_calls (jsKey (toolCall.dot "id")) ev.error
            some { p with tool_calls := tc })
    else st
  else if ev.event_type = "progress_update_completion_failed" then
    updateThinking st (fun prev => prev.map (fun p => { p with error := some ev.error }))
  else if ev.event_type = "run_steering_applied" then
    { st with steeringStatus := some "applied", steering := false }
  else if ev.event_type = "run_steering_failed" then
    { st with steeringStatus := some "failed", steering := false, steerMode := false }
  else if ev.event_type = "agent_output" then
    if st.processedTasks.contains ev.task_id then st
    else
      let content : JsVal :=
        if ev.data.isStr then ev.data
        else if (ev.data.dot "final_output").isNullish then JsVal.str (stringify ev.data)
        else ev.data.dot "final_output"
      let msgs1 := st.messages ++ [{ role := "assistant", content := content }]
      let msgs2 := match st.currentThinking with
        | some t =>
            replaceLastThinking msgs1 { t with is_complete := true, final_output := some ev.data }
        | none => msgs1
      { st with
        messages := msgs2, currentThinking := none, loading := false,
        currentTaskId := none, steering := false, steerMode := false,
        steeringStatus := none, researchProgress := none,
        processedTasks := addProcessed st.processedTasks ev.task_id }
  else if ev.event_type = "run_cancelled" then
    if st.processedTasks.contains ev.task_id then st
    else
      let snapshotThinking : Option ThinkingProgress :=
        match st.currentThinking with
        | some snap =>
          if snap.tool_calls.isEmpty then none
          else some { snap with
                      is_complete := true,
                      error := some (JsVal.str "Task cancelled by user") }
        | none => none
      let msg : Message :=
        { role := "assistant", content := JsVal.str "Task was cancelled.",
          thinking := snapshotThinking }
      let msgs := st.messages ++ [msg]
      { st with
        messages := msgs, currentThinking := none, loading := false,
        cancelling := false, currentTaskId := none, steering := false, steerMode := false,
        steeringStatus := none, researchProgress := none,
        processedTasks := addProcessed st.processedTasks ev.task_id }
  else if ev.event_type = "run_failed" then
    if st.processedTasks.contains ev.task_id then st
    else
      let snapshotThinking : Option ThinkingProgress :=
        match st.currentThinking with
        | some snap =>
          if snap.tool_calls.isEmpty then none
          else
            let e := if ev.error.truthy then ev.error
                     else JsVal.str "Agent failed to complete the task"
            some { snap with is_complete := true, error := some e }
        | none => none
      let msg : Message :=
        { role := "assistant", content := JsVal.str "Failed to get agent response.",
          thinking := snapshotThinking }
      let msgs := st.messages ++ [msg]
      { st with
        messages := msgs, currentThinking := none, loading := false,
        cancelling := false, currentTaskId := none, steering := false, steerMode := false,
        steeringStatus := none, researchProgress := none,
        processedTasks := addProcessed st.processedTasks ev.task_id }
  else st

/-- `handleWSMessage`: route by registry membership first; in the main
scope handle the batch-level events (which `return` early), then fall to
the main switch. -/
def handleWSMessage (ev : AgentEvent) (st : WSState) : WSState :=
  if (getKey st.subAgentProgress ev.task_id).isSome then
    subAgentBranch ev st
  else if ev.event_type = "batch_progress" then
    let pct := if ev.progress.isNum then ev.progress else ev.data.dot "progress"
    if pct.isUndefined then st else { st with researchProgress := some pct }
  else if ev.event_type = "batch_completed" then
    { st with researchProgress := some (JsVal.num 100) }
  else mainBranch ev st

/-- JS `Math.round` on an exact rational: round half toward positive
infinity. -/
def jsRound (q : ℚ) : ℤ := Int.floor (q + 1/2)

/-- `SubAgentCarousel`'s fallback percentage:
`total ? Math.round((completed / total) * 100) : 0` where `completed`
counts task ids whose registry entry reports `is_complete`. -/
def computedPct (taskIds : List String) (pm : List (String × ThinkingProgress)) : ℤ :=
  let total := taskIds.length
  let completed := (taskIds.filter (fun id =>
    ((getKey pm id).map (·.is_complete)).getD false)).length
  if total ≠ 0 then jsRound (((completed : ℚ) / (total : ℚ)) * 100) else 0

/-- `SubAgentCarousel`'s displayed percentage:
`progressPercent !== undefined ? Math.round(progressPercent) : computedPct`. -/
def displayedPct (progressPercent : Option ℚ) (taskIds : List String)
    (pm : List (String × ThinkingProgress)) : ℤ :=
  match progressPercent with
  | some p => jsRound p
  | none => computedPct taskIds pm

/-- `JSON.parse` applied when the value is a string (`try/catch` modelled
by `Option`: `none` is the thrown-and-caught case); non-strings pass
through. -/
def decodeIfStr (decode : String → Option JsVal) (v : JsVal) : Option JsVal :=
  match v with
  | .str s => decode s
  | w => some w

/-- The `{ results?, findings? }` shape returned by `parseFinalOutput`. -/
structure ParseResult : Type where
  results : Option (List JsVal) := none
  findings : Option (List JsVal) := none

/-- The tail of `parseFinalOutput`: extract `results` / `findings` from the
(possibly unwrapped) parsed value. -/
def interpretParsed (parsed : JsVal) : ParseResult :=
  let results := match parsed.asArr with
    | some xs => some xs
    | none => (parsed.dot "results").asArr
  let findings := match (parsed.dot "findings").asArr with
    | some xs => some xs
    | none => parsed.asArr
  { results := results, findings := findings }

/-- `parseFinalOutput` from `SubAgentCarousel`: falsy input yields `{}`;
strings are JSON-decoded (`{}` on failure); a non-array value with a
`final_output` field is unwrapped one level (decoding again when that
field is a string) before interpretation.  The Lean function is total: the
"never throws" part of the contract is by construction. -/
def parseFinalOutput (decode : String → Option JsVal) (finalOutput : JsVal) : ParseResult :=
  if finalOutput.truthy then
    match decodeIfStr decode finalOutput with
    | none => {}
    | some parsed =>
      if parsed.asArr.isNone && !(parsed.dot "final_output").isUndefined then
        match decodeIfStr decode (parsed.dot "final_output") with
        | none => {}
        | some unwrapped => interpretParsed unwrapped
      else interpretParsed parsed
  else {}

end MultiAgent

namespace MultiAgent

/-! ### Basic lemmas on the object-as-map operations -/

theorem getKey_nil {α : Type} (k : String) : getKey ([] : List (String × α)) k = none := rfl

theorem getKey_cons {α : Type} (a : String) (b : α) (rest : List (String × α)) (k : String) :
    getKey ((a, b) :: rest) k = if a = k then some b else getKey rest k := by
  by_cases h : a = k <;> simp [getKey, List.find?, h]

theorem getKey_setKey {α : Type} (m : List (String × α)) (k k' : String) (v : α) :
    getKey (setKey m k v) k' = if k = k' then some v else getKey m k' := by
  induction m with
  | nil => simp [setKey, getKey_cons, getKey_nil]
  | cons p rest ih =>
    obtain ⟨a, b⟩ := p
    by_cases h1 : a = k
    · subst h1
      by_cases h2 : a = k' <;> simp [setKey, getKey_cons, h2]
    · by_cases h2 : a = k'
      · have h3 : k ≠ k' := fun e => h1 (h2.trans e.symm)
        simp [setKey, getKey_cons, h1, h2, h3, Ne.symm h3]
      · simp [setKey, getKey_cons, h1, h2, ih]

theorem getKey_setKey_self {α : Type} (m : List (String × α)) (k : String) (v : α) :
    getKey (setKey m k v) k = some v := by
  simp [getKey_setKey]

theorem getKey_setKey_ne {α : Type} (m : List (String × α)) (k k' : String) (v : α)
    (h : k ≠ k') : getKey (setKey m k v) k' = getKey m k' := by
  simp [getKey_setKey, h]

/-! ### Frame lemmas for the two updaters -/

@[simp] theorem updateSubAgent_messages (st : WSState) (tid : String)
    (f : Option ThinkingProgress → Option ThinkingProgress) :
    (updateSubAgent st tid f).messages = st.messages := by
  unfold updateSubAgent; split <;> rfl

@[simp] theorem updateSubAgent_currentThinking (st : WSState) (tid : String)
    (f : Option ThinkingProgress → Option ThinkingProgress) :
    (updateSubAgent st tid f).currentThinking = st.currentThinking := by
  unfold updateSubAgent; split <;> rfl

@[simp] theorem updateSubAgent_researchProgress (st : WSState) (tid : String)
    (f : Option ThinkingProgress → Option ThinkingProgress) :
    (updateSubAgent st tid f).researchProgress = st.researchProgress := by
  unfold updateSubAgent; split <;> rfl

@[simp] theorem updateSubAgent_loading (st : WSState) (tid : String)
    (f : Option ThinkingProgress → Option ThinkingProgress) :
    (updateSubAgent st tid f).loading = st.loading := by
  unfold updateSubAgent; split <;> rfl

@[simp] theorem updateSubAgent_currentTaskId (st : WSState) (tid : String)
    (f : Option ThinkingProgress → Option ThinkingProgress) :
    (updateSubAgent st tid f).currentTaskId = st.currentTaskId := by
  unfold updateSubAgent; split <;> rfl

@[simp] theorem updateSubAgent_cancelling (st : WSState) (tid : String)
    (f : Option ThinkingProgress → Option ThinkingProgress) :
    (updateSubAgent st tid f).cancelling = st.cancelling := by
  unfold updateSubAgent; split <;> rfl

@[simp] theorem updateSubAgent_steering (st : WSState) (tid : String)
    (f : Option ThinkingProgress → Option ThinkingProgress) :
    (updateSubAgent st tid f).steering = st.steering := by
  unfold updateSubAgent; split <;> rfl

@[simp] theorem updateSubAgent_steerMode (st : WSState) (tid : String)
    (f : Option ThinkingProgress → Option ThinkingProgress) :
    (updateSubAgent st tid f).steerMode = st.steerMode := by
  unfold updateSubAgent; split <;> rfl

@[simp] theorem updateSubAgent_steeringStatus (st : WSState) (tid : String)
    (f : Option ThinkingProgress → Option ThinkingProgress) :
    (updateSubAgent st tid f).steeringStatus = st.steeringStatus := by
  unfold updateSubAgent; split <;> rfl

@[simp] theorem updateSubAgent_processedTasks (st : WSState) (tid : String)
    (f : Option ThinkingProgress → Option ThinkingProgress) :
    (updateSubAgent st tid f).processedTasks = st.processedTasks := by
  unfold updateSubAgent; split <;> rfl

theorem updateSubAgent_getKey_ne (st : WSState) (tid : String)
    (f : Option ThinkingProgress → Option ThinkingProgress) (k : String) (h : k ≠ tid) :
    getKey (updateSubAgent st tid f).subAgentProgress k = getKey st.subAgentProgress k := by
  unfold updateSubAgent
  split
  · rfl
  · simp [getKey_setKey, h.symm]

theorem updateSubAgent_getKey_self (st : WSState) (tid : String)
    (f : Option ThinkingProgress → Option ThinkingProgress) :
    getKey (updateSubAgent st tid f).subAgentProgress tid =
      match f (getKey st.subAgentProgress tid) with
      | none => getKey st.subAgentProgress tid
      | some next => some next := by
  unfold updateSubAgent
  split <;> rename_i heq
  · simp [heq]
  · simp [heq, getKey_setKey_self]

end MultiAgent

namespace MultiAgent

open JsVal

@[simp] theorem updateThinking_messages (st : WSState)
    (f : Option ThinkingProgress → Option ThinkingProgress) :
    (updateThinking st f).messages = st.messages := rfl

@[simp] theorem updateThinking_subAgentProgress (st : WSState)
    (f : Option ThinkingProgress → Option ThinkingProgress) :
    (updateThinking st f).subAgentProgress = st.subAgentProgress := rfl

@[simp] theorem updateThinking_researchProgress (st : WSState)
    (f : Option ThinkingProgress → Option ThinkingProgress) :
    (updateThinking st f).researchProgress = st.researchProgress := rfl

@[simp] theorem updateThinking_processedTasks (st : WSState)
    (f : Option ThinkingProgress → Option ThinkingProgress) :
    (updateThinking st f).processedTasks = st.processedTasks := rfl

@[simp] theorem updateThinking_currentThinking (st : WSState)
    (f : Option ThinkingProgress → Option ThinkingProgress) :
    (updateThinking st f).currentThinking = f st.currentThinking := rfl

/-! ### Lemmas about registry growth (`addMissing`) -/

theorem addMissing_cons (reg : List (String × ThinkingProgress)) (v : JsVal)
    (ids : List JsVal) :
    addMissing reg (v :: ids) =
      addMissing (match getKey reg (jsKey v) with
        | some _ => reg
        | none => setKey reg (jsKey v) (emptyProgress (jsKey v))) ids := rfl

theorem getKey_addMissing_present (reg : List (String × ThinkingProgress))
    (ids : List JsVal) (k : String) (p : ThinkingProgress)
    (h : getKey reg k = some p) : getKey (addMissing reg ids) k = some p := by
  induction ids generalizing reg with
  | nil => exact h
  | cons v ids ih =>
    rw [addMissing_cons]
    rcases hv : getKey reg (jsKey v) with _ | q
    · simp only [hv]
      apply ih
      by_cases hk : jsKey v = k
      · subst hk; rw [h] at hv; cases hv
      · rw [getKey_setKey_ne _ _ _ _ hk]; exact h
    · simp only [hv]
      exact ih _ h

theorem getKey_addMissing_absent (reg : List (String × ThinkingProgress))
    (ids : List JsVal) (k : String) (h : getKey reg k = none) :
    getKey (addMissing reg ids) k =
      if k ∈ ids.map jsKey then some (emptyProgress k) else none := by
  induction ids generalizing reg with
  | nil => simpa using h
  | cons v ids ih =>
    rw [addMissing_cons]
    rcases hv : getKey reg (jsKey v) with _ | q
    · simp only [hv]
      by_cases hk : jsKey v = k
      · subst hk
        rw [getKey_addMissing_present _ _ _ _ (getKey_setKey_self _ _ _)]
        simp
      · rw [ih _ (by rw [getKey_setKey_ne _ _ _ _ hk]; exact h)]
        simp [Ne.symm hk]
    · simp only [hv]
      by_cases hk : jsKey v = k
      · subst hk; rw [h] at hv; cases hv
      · rw [ih _ h]
        simp [Ne.symm hk]

end MultiAgent

namespace MultiAgent

open JsVal

theorem updateSubAgent_getKey_isSome (st : WSState) (tid : String)
    (f : Option ThinkingProgress → Option ThinkingProgress) (k : String)
    (hroute : (getKey st.subAgentProgress tid).isSome = true) :
    (getKey (updateSubAgent st tid f).subAgentProgress k).isSome =
      (getKey st.subAgentProgress k).isSome := by
  by_cases hk : k = tid
  · subst hk
    rw [updateSubAgent_getKey_self]
    rcases hfp : f (getKey st.subAgentProgress k) with _ | r
    · rfl
    · simp [hroute]
  · rw [updateSubAgent_getKey_ne _ _ _ _ hk]

theorem addProcessed_contains_self (l : List String) (tid : String) :
    (addProcessed l tid).contains tid = true := by
  unfold addProcessed
  split_ifs with h
  · exact h
  · simp

/-! ### Sample states and events used by concrete counterexamples/witnesses -/

/-- A state whose Sub-Agent Registry holds one already-completed task `"t"`
(error `"e1"`), with `"t"` already recorded in the Idempotency Guard. -/
def regSampleState : WSState :=
  { messages := [], currentThinking := none, loading := false, currentTaskId := none,
    cancelling := false, steering := false, steerMode := false, steeringStatus := none,
    subAgentProgress := [("t", { task_id := "t", tool_calls := [], is_complete := true,
                                 error := some (.str "e1") })],
    researchProgress := none, processedTasks := ["t"] }

/-- A state with a live main-task progress that has no tool calls yet. -/
def mainSampleState : WSState :=
  { messages := [],
    currentThinking := some { task_id := "m", tool_calls := [], is_complete := false },
    loading := true, currentTaskId := some "m", cancelling := false, steering := false,
    steerMode := false, steeringStatus := none, subAgentProgress := [],
    researchProgress := none, processedTasks := [] }

/-- A completed `ToolCall` ledger entry with id `"c"`. -/
def completedEntryC : ToolCallEntry := { id := some (.str "c"), status := some .completed }

/-- Like `mainSampleState` but the main task has one completed tool call `"c"`. -/
def mainSampleState2 : WSState :=
  { mainSampleState with
    currentThinking := some { task_id := "m", tool_calls := [("c", completedEntryC)],
                              is_complete := false } }

/-- A well-formed `tool_action_started` event for tool-call id `"c"`. -/
def startedEventC (tid : String) : AgentEvent :=
  { task_id := tid, event_type := "progress_update_tool_action_started",
    data := .obj [("args", .arr [.obj [("id", .str "c"),
      ("function", .obj [("name", .str "search"), ("arguments", .str "q")])]])] }

/-- A registry view with tasks `a`, `b` complete (used for the percentage
example `2 of 3 → 67`). -/
def demoRegistry : List (String × ThinkingProgress) :=
  [("a", { task_id := "a", tool_calls := [], is_complete := true }),
   ("b", { task_id := "b", tool_calls := [], is_complete := true })]

end MultiAgent

namespace MultiAgent

open JsVal

/-- C6: Whenever the Batch Progress Tracker holds an explicit
server-reported value, the batch completion percentage equals that value
rounded to the nearest integer; otherwise it equals
`round(100 * completed_count / total_count)` over the batch's registry
entries, where `completed_count` counts entries with `is_complete = true`. -/
theorem C6_batch_percentage (p : ℚ) (ids : List String)
    (pm : List (String × ThinkingProgress)) (h : ids ≠ []) :
    displayedPct (some p) ids pm = jsRound p ∧
    displayedPct none ids pm =
      jsRound (100 * ((ids.filter (fun id =>
        ((getKey pm id).map (·.is_complete)).getD false)).length : ℚ) / (ids.length : ℚ)) := by
  refine ⟨rfl, ?_⟩
  simp only [displayedPct, computedPct]
  rw [if_pos (fun e => h (List.length_eq_zero.mp e))]
  congr 1
  ring

/-- Witness for C6: with tasks `a`, `b` complete out of `["a","b","c"]`,
the computed percentage is `67`, and an explicit `40` overrides it to
`40`. -/
theorem C6_batch_percentage_witness :
    displayedPct (some 40) ["a","b","c"] demoRegistry = 40 ∧
    displayedPct none ["a","b","c"] demoRegistry = 67 := by
  have h := C6_batch_percentage 40 ["a","b","c"] demoRegistry (by decide)
  constructor
  · rw [h.1]; norm_num [jsRound]
  · rw [h.2]
    have hfl : ((["a","b","c"] : List String).filter (fun id =>
        ((getKey demoRegistry id).map (·.is_complete)).getD false)).length = 2 := by decide
    rw [hfl]
    norm_num [jsRound]

/-- C8: the Payload Parser returns a `{results?, findings?}` value for
every input and never throws (the model is total by construction);
`null`/`undefined` inputs yield `{}`, a string whose JSON decode fails
yields `{}`, and a one-level `{final_output: ...}` wrapper — itself
possibly a JSON string — is unwrapped before interpretation. -/
theorem C8_parser_safety (decode : String → Option JsVal) (s : String)
    (fields : List (String × JsVal)) (v : JsVal)
    (hdec : decode s = none)
    (hfield : (JsVal.obj fields).dot "final_output" = v)
    (hv : v.isUndefined = false) :
    parseFinalOutput decode .null = {} ∧
    parseFinalOutput decode .jsUndefined = {} ∧
    parseFinalOutput decode (.str s) = {} ∧
    parseFinalOutput decode (.obj fields) =
      (match decodeIfStr decode v with
       | none => {}
       | some w => interpretParsed w) := by
  refine ⟨rfl, rfl, ?_, ?_⟩
  · by_cases hs : s = ""
    · subst hs; rfl
    · simp [parseFinalOutput, truthy, hs, decodeIfStr, hdec]
  · simp [parseFinalOutput, truthy, decodeIfStr, asArr, hfield, hv]

/-- Witness for C8 at concrete inputs: a failed decode of `"not json"`
yields `{}`, and `{final_output: []}` is unwrapped to the array. -/
theorem C8_parser_safety_witness :
    ((fun _ => none : String → Option JsVal) "not json" = none) ∧
    parseFinalOutput (fun _ => none) (.str "not json") = {} ∧
    parseFinalOutput (fun _ => none) (.obj [("final_output", .arr [])]) =
      { results := some [], findings := some [] } := by
  have h := C8_parser_safety (fun _ => none) "not json" [("final_output", .arr [])]
    (.arr []) rfl rfl rfl
  exact ⟨rfl, h.2.2.1, by rw [h.2.2.2]; rfl⟩

/-- C9: a main-task `run_cancelled` event with zero recorded tool calls
appends a bare cancelled transcript message with no attached progress
snapshot; with at least one recorded tool call it appends a message
carrying a finalized snapshot with `is_complete = true` and
`error = "Task cancelled by user"`. -/
theorem C9_run_cancelled_transcript (ev : AgentEvent) (st : WSState)
    (hroute : getKey st.subAgentProgress ev.task_id = none)
    (htype : ev.event_type = "run_cancelled")
    (hguard : st.processedTasks.contains ev.task_id = false) :
    ((st.currentThinking = none ∨ ∃ p, st.currentThinking = some p ∧ p.tool_calls = []) →
      (handleWSMessage ev st).messages =
        st.messages ++ [{ role := "assistant", content := JsVal.str "Task was cancelled.",
                          thinking := none }]) ∧
    (∀ p, st.currentThinking = some p → p.tool_calls ≠ [] →
      (handleWSMessage ev st).messages =
        st.messages ++ [{ role := "assistant", content := JsVal.str "Task was cancelled.",
                          thinking := some { p with is_complete := true, error := some (JsVal.str "Task cancelled by user") } }]) := by
  have hmain : handleWSMessage ev st = mainBranch ev st := by
    simp [handleWSMessage, hroute, htype]
  have hguard' : ev.task_id ∉ st.processedTasks := by simpa using hguard
  constructor
  · rintro (hn | ⟨p, hp, hpe⟩)
    · simp [hmain, mainBranch, htype, hguard', hn]
    · simp [hmain, mainBranch, htype, hguard', hp, hpe]
  · intro p hp hne
    cases hpc : p.tool_calls with
    | nil => exact absurd hpc hne
    | cons a l => simp [hmain, mainBranch, htype, hguard', hp, hpc]

/-- Witness for C9: at a concrete state with no tool calls the message is
bare; with one completed tool call the snapshot is attached. -/
theorem C9_run_cancelled_transcript_witness :
    (handleWSMessage { task_id := "m", event_type := "run_cancelled" } mainSampleState).messages =
      [{ role := "assistant", content := JsVal.str "Task was cancelled.", thinking := none }] ∧
    (handleWSMessage { task_id := "m", event_type := "run_cancelled" } mainSampleState2).messages =
      [{ role := "assistant", content := JsVal.str "Task was cancelled.",
         thinking := some { task_id := "m", tool_calls := [("c", completedEntryC)],
                            is_complete := true,
                            error := some (JsVal.str "Task cancelled by user") } }] := by
  constructor
  · have h := (C9_run_cancelled_transcript { task_id := "m", event_type := "run_cancelled" }
      mainSampleState rfl rfl rfl).1
    rw [h (Or.inr ⟨_, rfl, rfl⟩)]
    rfl
  · have h := (C9_run_cancelled_transcript { task_id := "m", event_type := "run_cancelled" }
      mainSampleState2 rfl rfl rfl).2
    rw [h _ rfl (by exact fun hh => List.noConfusion hh)]
    rfl

/-- C10: a `batch_progress` or `batch_completed` event addressed to a
registered sub-agent task whose `data` carries no `args` array changes no
state at all — the nested batch cases fall through into the
tool-action-started guard and break. -/
theorem C10_subagent_batch_noop (ev : AgentEvent) (st : WSState)
    (hroute : (getKey st.subAgentProgress ev.task_id).isSome = true)
    (htype : ev.event_type = "batch_progress" ∨ ev.event_type = "batch_completed")
    (hargs : ev.data.dot "args" = JsVal.jsUndefined) :
    handleWSMessage ev st = st := by
  have h1 : handleWSMessage ev st = subAgentBranch ev st := by
    simp [handleWSMessage, hroute]
  rw [h1]
  rcases htype with h | h <;>
    simp [subAgentBranch, h, hargs, JsVal.idx0, JsVal.truthy]

/-- Witness for C10: a concrete `batch_progress` event for registered task
`"t"` with `batch_id`/`progress` data but no `args` leaves the state
untouched. -/
theorem C10_subagent_batch_noop_witness :
    handleWSMessage
      { task_id := "t", event_type := "batch_progress",
        data := .obj [("batch_id", .str "b"), ("progress", .num 50)] }
      regSampleState = regSampleState := by
  exact C10_subagent_batch_noop _ _ rfl (Or.inl rfl) rfl

end MultiAgent

namespace MultiAgent

open JsVal

/-! ### Frame lemmas for the whole sub-agent branch -/

theorem subAgentBranch_messages (ev : AgentEvent) (st : WSState) :
    (subAgentBranch ev st).messages = st.messages := by
  unfold subAgentBranch; dsimp only; split_ifs <;> simp

theorem subAgentBranch_currentThinking (ev : AgentEvent) (st : WSState) :
    (subAgentBranch ev st).currentThinking = st.currentThinking := by
  unfold subAgentBranch; dsimp only; split_ifs <;> simp

theorem subAgentBranch_researchProgress (ev : AgentEvent) (st : WSState) :
    (subAgentBranch ev st).researchProgress = st.researchProgress := by
  unfold subAgentBranch; dsimp only; split_ifs <;> simp

theorem subAgentBranch_loading (ev : AgentEvent) (st : WSState) :
    (subAgentBranch ev st).loading = st.loading := by
  unfold subAgentBranch; dsimp only; split_ifs <;> simp

theorem subAgentBranch_currentTaskId (ev : AgentEvent) (st : WSState) :
    (subAgentBranch ev st).currentTaskId = st.currentTaskId := by
  unfold subAgentBranch; dsimp only; split_ifs <;> simp

theorem subAgentBranch_cancelling (ev : AgentEvent) (st : WSState) :
    (subAgentBranch ev st).cancelling = st.cancelling := by
  unfold subAgentBranch; dsimp only; split_ifs <;> simp

theorem subAgentBranch_steering (ev : AgentEvent) (st : WSState) :
    (subAgentBranch ev st).steering = st.steering := by
  unfold subAgentBranch; dsimp only; split_ifs <;> simp

theorem subAgentBranch_steerMode (ev : AgentEvent) (st : WSState) :
    (subAgentBranch ev st).steerMode = st.steerMode := by
  unfold subAgentBranch; dsimp only; split_ifs <;> simp

theorem subAgentBranch_steeringStatus (ev : AgentEvent) (st : WSState) :
    (subAgentBranch ev st).steeringStatus = st.steeringStatus := by
  unfold subAgentBranch; dsimp only; split_ifs <;> simp

theorem subAgentBranch_getKey_ne (ev : AgentEvent) (st : WSState) (k : String)
    (hk : k ≠ ev.task_id) :
    getKey (subAgentBranch ev st).subAgentProgress k = getKey st.subAgentProgress k := by
  unfold subAgentBranch; dsimp only
  split_ifs <;> simp [updateSubAgent_getKey_ne _ _ _ _ hk]

theorem subAgentBranch_getKey_isSome (ev : AgentEvent) (st : WSState) (k : String)
    (hroute : (getKey st.subAgentProgress ev.task_id).isSome = true) :
    (getKey (subAgentBranch ev st).subAgentProgress k).isSome =
      (getKey st.subAgentProgress k).isSome := by
  unfold subAgentBranch; dsimp only
  split_ifs <;> simp [updateSubAgent_getKey_isSome _ _ _ _ hroute]

end MultiAgent

namespace MultiAgent

open JsVal

/-- C5: an event whose `task_id` is a registered sub-agent key updates at
most that sub-agent's registry entry (plus the idempotency set), and
leaves the main Task Progress, the conversation transcript, the batch
progress percentage, and every other piece of state unchanged, regardless
of its `event_type`. -/
theorem C5_subagent_routing_frame (ev : AgentEvent) (st : WSState)
    (hroute : (getKey st.subAgentProgress ev.task_id).isSome = true) :
    (handleWSMessage ev st).messages = st.messages ∧
    (handleWSMessage ev st).currentThinking = st.currentThinking ∧
    (handleWSMessage ev st).researchProgress = st.researchProgress ∧
    (handleWSMessage ev st).loading = st.loading ∧
    (handleWSMessage ev st).currentTaskId = st.currentTaskId ∧
    (handleWSMessage ev st).cancelling = st.cancelling ∧
    (handleWSMessage ev st).steering = st.steering ∧
    (handleWSMessage ev st).steerMode = st.steerMode ∧
    (handleWSMessage ev st).steeringStatus = st.steeringStatus ∧
    ∀ k, k ≠ ev.task_id →
      getKey (handleWSMessage ev st).subAgentProgress k = getKey st.subAgentProgress k := by
  have h1 : handleWSMessage ev st = subAgentBranch ev st := by
    simp [handleWSMessage, hroute]
  rw [h1]
  exact ⟨subAgentBranch_messages ev st, subAgentBranch_currentThinking ev st,
         subAgentBranch_researchProgress ev st, subAgentBranch_loading ev st,
         subAgentBranch_currentTaskId ev st, subAgentBranch_cancelling ev st,
         subAgentBranch_steering ev st, subAgentBranch_steerMode ev st,
         subAgentBranch_steeringStatus ev st,
         fun k hk => subAgentBranch_getKey_ne ev st k hk⟩

/-- Witness for C5: a terminal `run_failed` for registered task `"t"`
leaves the transcript, batch percentage and other registry keys of a
concrete state unchanged. -/
theorem C5_subagent_routing_frame_witness :
    (handleWSMessage { task_id := "t", event_type := "run_failed", error := .str "e2" }
        regSampleState).messages = regSampleState.messages ∧
    (handleWSMessage { task_id := "t", event_type := "run_failed", error := .str "e2" }
        regSampleState).researchProgress = regSampleState.researchProgress ∧
    getKey (handleWSMessage { task_id := "t", event_type := "run_failed", error := .str "e2" }
        regSampleState).subAgentProgress "u" = getKey regSampleState.subAgentProgress "u" := by
  have h := C5_subagent_routing_frame
    { task_id := "t", event_type := "run_failed", error := .str "e2" } regSampleState rfl
  exact ⟨h.1, h.2.2.1, h.2.2.2.2.2.2.2.2.2 "u" (by decide)⟩

end MultiAgent

namespace MultiAgent

open JsVal

theorem getKey_addMissing_mem (reg : List (String × ThinkingProgress)) (ids : List JsVal)
    (v : JsVal) (hv : v ∈ ids) :
    getKey (addMissing reg ids) (jsKey v) =
      some ((getKey reg (jsKey v)).getD (emptyProgress (jsKey v))) := by
  rcases h : getKey reg (jsKey v) with _ | p
  · rw [getKey_addMissing_absent _ _ _ h, if_pos (List.mem_map_of_mem _ hv)]
    rfl
  · rw [getKey_addMissing_present _ _ _ _ h]
    rfl

theorem getKey_addMissing_not_mem (reg : List (String × ThinkingProgress)) (ids : List JsVal)
    (k : String) (hk : k ∉ ids.map jsKey) :
    getKey (addMissing reg ids) k = getKey reg k := by
  rcases h : getKey reg k with _ | p
  · rw [getKey_addMissing_absent _ _ _ h, if_neg hk]
  · rw [getKey_addMissing_present _ _ _ _ h]


theorem mainBranch_subAgentProgress_of_ne (ev : AgentEvent) (st : WSState)
    (h : ev.event_type ≠ "progress_update_tool_action_completed") :
    (mainBranch ev st).subAgentProgress = st.subAgentProgress := by
  by_cases h1 : ev.event_type = "progress_update_tool_action_started"
  · simp [mainBranch, h1]
    try (split_ifs <;> simp)
  · by_cases h2 : ev.event_type = "progress_update_tool_action_failed"
    · simp [mainBranch, h1, h2]
      try (split_ifs <;> simp)
    · by_cases h3 : ev.event_type = "progress_update_completion_failed"
      · simp [mainBranch, h1, h2, h3]
        try (split_ifs <;> simp)
      · by_cases h4 : ev.event_type = "run_steering_applied"
        · simp [mainBranch, h1, h2, h3, h4]
          try (split_ifs <;> simp)
        · by_cases h5 : ev.event_type = "run_steering_failed"
          · simp [mainBranch, h1, h2, h3, h4, h5]
            try (split_ifs <;> simp)
          · by_cases h6 : ev.event_type = "agent_output"
            · simp [mainBranch, h1, h2, h3, h4, h5, h6]
              try (split_ifs <;> simp)
            · by_cases h7 : ev.event_type = "run_cancelled"
              · simp [mainBranch, h1, h2, h3, h4, h5, h6, h7]
                try (split_ifs <;> simp)
              · by_cases h8 : ev.event_type = "run_failed"
                · simp [mainBranch, h1, h2, h3, h4, h5, h6, h7, h8]
                  try (split_ifs <;> simp)
                · simp [mainBranch, h, h1, h2, h3, h4, h5, h6, h7, h8]

theorem mainBranch_research (ev : AgentEvent) (st : WSState) (ids : List JsVal)
    (htype : ev.event_type = "progress_update_tool_action_completed")
    (htc : ((ev.data.dot "result").dot "tool_call").truthy = true)
    (hname : ((((ev.data.dot "result").dot "tool_call").dot "function").dot "name").isStrEq
      "research" = true)
    (harr : ((ev.data.dot "result").dot "output_data").asArr = some ids) :
    (mainBranch ev st).researchProgress = some (JsVal.num 0) ∧
    (mainBranch ev st).subAgentProgress = addMissing st.subAgentProgress ids := by
  unfold mainBranch
  simp only [htype]
  rw [if_neg (by decide), if_pos trivial, if_pos htc, if_pos hname, harr]
  exact ⟨rfl, rfl⟩

theorem handleWSMessage_subAg_isSome_of_ne (ev : AgentEvent) (st : WSState) (k : String)
    (h : ev.event_type ≠ "progress_update_tool_action_completed") :
    (getKey (handleWSMessage ev st).subAgentProgress k).isSome =
      (getKey st.subAgentProgress k).isSome := by
  unfold handleWSMessage
  by_cases hroute : (getKey st.subAgentProgress ev.task_id).isSome = true
  · rw [if_pos hroute]
    exact subAgentBranch_getKey_isSome ev st k hroute
  · rw [if_neg hroute]
    by_cases hbp : ev.event_type = "batch_progress"
    · rw [if_pos hbp]
      dsimp only
      split_ifs <;> rfl
    · rw [if_neg hbp]
      by_cases hbc : ev.event_type = "batch_completed"
      · rw [if_pos hbc]
      · rw [if_neg hbc, mainBranch_subAgentProgress_of_ne ev st h]

/-- A main-scope `tool_action_completed` event for the `research` tool
reporting sub-task ids `["a","b"]`. -/
def researchEventAB : AgentEvent :=
  { task_id := "m", event_type := "progress_update_tool_action_completed",
    data := .obj [("result", .obj [("tool_call", .obj [("id", .str "r"),
      ("function", .obj [("name", .str "research")])]),
      ("output_data", .arr [.str "a", .str "b"])])] }

/-- C7: on a main-task `tool_action_completed` whose tool name is
`"research"` and whose `output_data` is an array of task ids, every id not
already present gets a fresh empty Task Progress, ids already present are
left unchanged, and the Batch Progress Tracker is reset to `0`; no other
event type grows (or shrinks) the registry key set, in either scope. -/
theorem C7_research_registry_growth :
    (∀ (ev : AgentEvent) (st : WSState) (ids : List JsVal),
      (getKey st.subAgentProgress ev.task_id).isSome = false →
      ev.event_type = "progress_update_tool_action_completed" →
      ((ev.data.dot "result").dot "tool_call").truthy = true →
      ((((ev.data.dot "result").dot "tool_call").dot "function").dot "name").isStrEq
        "research" = true →
      ((ev.data.dot "result").dot "output_data").asArr = some ids →
      (handleWSMessage ev st).researchProgress = some (JsVal.num 0) ∧
      (∀ v ∈ ids, getKey (handleWSMessage ev st).subAgentProgress (jsKey v) =
        some ((getKey st.subAgentProgress (jsKey v)).getD (emptyProgress (jsKey v)))) ∧
      (∀ k, k ∉ ids.map jsKey →
        getKey (handleWSMessage ev st).subAgentProgress k = getKey st.subAgentProgress k)) ∧
    (∀ (ev : AgentEvent) (st : WSState) (k : String),
      ev.event_type ≠ "progress_update_tool_action_completed" →
      (getKey (handleWSMessage ev st).subAgentProgress k).isSome =
        (getKey st.subAgentProgress k).isSome) ∧
    (∀ (ev : AgentEvent) (st : WSState) (k : String),
      (getKey st.subAgentProgress ev.task_id).isSome = true →
      (getKey (handleWSMessage ev st).subAgentProgress k).isSome =
        (getKey st.subAgentProgress k).isSome) := by
  refine ⟨?_, ?_, ?_⟩
  · intro ev st ids hroute htype htc hname harr
    have h1 : handleWSMessage ev st = mainBranch ev st := by
      unfold handleWSMessage
      rw [if_neg (by simp [hroute]), if_neg (by rw [htype]; decide),
        if_neg (by rw [htype]; decide)]
    have h2 := mainBranch_research ev st ids htype htc hname harr
    refine ⟨by rw [h1]; exact h2.1, ?_, ?_⟩
    · intro v hv
      rw [h1, h2.2, getKey_addMissing_mem _ _ _ hv]
    · intro k hk
      rw [h1, h2.2, getKey_addMissing_not_mem _ _ _ hk]
  · exact fun ev st k h => handleWSMessage_subAg_isSome_of_ne ev st k h
  · intro ev st k hroute
    have h1 : handleWSMessage ev st = subAgentBranch ev st := by
      simp [handleWSMessage, hroute]
    rw [h1]
    exact subAgentBranch_getKey_isSome ev st k hroute

/-- Witness for C7: the concrete research completion registers `"a"` and
`"b"` as fresh empty entries and resets the tracker to `0`; a started
event for an unregistered task grows nothing. -/
theorem C7_research_registry_growth_witness :
    (handleWSMessage researchEventAB mainSampleState).researchProgress = some (JsVal.num 0) ∧
    getKey (handleWSMessage researchEventAB mainSampleState).subAgentProgress "a" =
      some (emptyProgress "a") ∧
    (getKey (handleWSMessage (startedEventC "x") mainSampleState).subAgentProgress "a").isSome =
      (getKey mainSampleState.subAgentProgress "a").isSome := by
  have h := C7_research_registry_growth
  have h1 := h.1 researchEventAB mainSampleState [.str "a", .str "b"] rfl rfl rfl rfl rfl
  refine ⟨h1.1, ?_, h.2.1 (startedEventC "x") mainSampleState "a" (by decide)⟩
  exact h1.2.1 (.str "a") (by simp)

end MultiAgent

namespace MultiAgent

open JsVal

theorem handleWSMessage_main (ev : AgentEvent) (st : WSState)
    (hroute : getKey st.subAgentProgress ev.task_id = none)
    (h1 : ev.event_type ≠ "batch_progress") (h2 : ev.event_type ≠ "batch_completed") :
    handleWSMessage ev st = mainBranch ev st := by
  unfold handleWSMessage
  rw [if_neg (by simp [hroute]), if_neg h1, if_neg h2]

theorem updateSubAgent_complete_preserved (st : WSState) (tid : String)
    (f : Option ThinkingProgress → Option ThinkingProgress)
    (p : ThinkingProgress) (hget : getKey st.subAgentProgress tid = some p)
    (hc : p.is_complete = true)
    (hf : ∀ r, f (some p) = some r → r.is_complete = true) :
    ∃ p', getKey (updateSubAgent st tid f).subAgentProgress tid = some p' ∧
      p'.is_complete = true := by
  rw [updateSubAgent_getKey_self, hget]
  rcases hfp : f (some p) with _ | r
  · exact ⟨p, rfl, hc⟩
  · exact ⟨r, rfl, hf r hfp⟩

theorem subAgentBranch_complete_preserved (ev : AgentEvent) (st : WSState) (id : String)
    (p : ThinkingProgress) (hget : getKey st.subAgentProgress id = some p)
    (hc : p.is_complete = true) :
    ∃ p', getKey (subAgentBranch ev st).subAgentProgress id = some p' ∧
      p'.is_complete = true := by
  by_cases hid : id = ev.task_id
  case neg =>
    exact ⟨p, by rw [subAgentBranch_getKey_ne ev st id hid]; exact hget, hc⟩
  case pos =>
    subst hid
    unfold subAgentBranch
    try dsimp only
    split_ifs <;>
      first
        | exact ⟨p, hget, hc⟩
        | exact updateSubAgent_complete_preserved st _ _ p hget hc
            (fun r hr => by cases Option.some.inj hr; first | rfl | exact hc)

theorem mainBranch_getKey_present (ev : AgentEvent) (st : WSState) (id : String)
    (p : ThinkingProgress) (hget : getKey st.subAgentProgress id = some p) :
    getKey (mainBranch ev st).subAgentProgress id = some p := by
  by_cases h : ev.event_type = "progress_update_tool_action_completed"
  · unfold mainBranch
    simp only [h]
    rw [if_neg (by decide), if_pos trivial]
    try dsimp only
    split_ifs
    · rcases harr : ((ev.data.dot "result").dot "output_data").asArr with _ | ids
      · simp only [harr]
        exact hget
      · simp only [harr]
        exact getKey_addMissing_present _ _ _ _ hget
    · exact hget
    · exact hget
  · rw [mainBranch_subAgentProgress_of_ne ev st h]
    exact hget

end MultiAgent

namespace MultiAgent

open JsVal

theorem mainBranch_thinking_monotone (ev : AgentEvent) (st : WSState) (t : ThinkingProgress)
    (ht : st.currentThinking = some t) (hc : t.is_complete = true) :
    (mainBranch ev st).currentThinking = none ∨
    ∃ t', (mainBranch ev st).currentThinking = some t' ∧ t'.is_complete = true := by
  unfold mainBranch
  by_cases h1 : ev.event_type = "progress_update_tool_action_started"
  · rw [if_pos h1]
    try dsimp only
    split_ifs
    · right
      simp only [updateThinking_currentThinking, ht]
      exact ⟨_, rfl, hc⟩
    · exact Or.inr ⟨t, ht, hc⟩
  rw [if_neg h1]
  by_cases h2 : ev.event_type = "progress_update_tool_action_completed"
  · rw [if_pos h2]
    try dsimp only
    split_ifs
    · rcases harr : ((ev.data.dot "result").dot "output_data").asArr with _ | ids <;>
        simp only [harr] <;>
        · right
          simp only [updateThinking_currentThinking, ht]
          exact ⟨_, rfl, hc⟩
    · right
      simp only [updateThinking_currentThinking, ht]
      exact ⟨_, rfl, hc⟩
    · exact Or.inr ⟨t, ht, hc⟩
  rw [if_neg h2]
  by_cases h3 : ev.event_type = "progress_update_tool_action_failed"
  · rw [if_pos h3]
    try dsimp only
    split_ifs
    · right
      simp only [updateThinking_currentThinking, ht]
      exact ⟨_, rfl, hc⟩
    · exact Or.inr ⟨t, ht, hc⟩
  rw [if_neg h3]
  by_cases h4 : ev.event_type = "progress_update_completion_failed"
  · rw [if_pos h4]
    right
    simp only [updateThinking_currentThinking, ht]
    exact ⟨_, rfl, hc⟩
  rw [if_neg h4]
  by_cases h5 : ev.event_type = "run_steering_applied"
  · rw [if_pos h5]
    exact Or.inr ⟨t, ht, hc⟩
  rw [if_neg h5]
  by_cases h6 : ev.event_type = "run_steering_failed"
  · rw [if_pos h6]
    exact Or.inr ⟨t, ht, hc⟩
  rw [if_neg h6]
  by_cases h7 : ev.event_type = "agent_output"
  · rw [if_pos h7]
    by_cases hg : st.processedTasks.contains ev.task_id = true
    · rw [if_pos hg]
      exact Or.inr ⟨t, ht, hc⟩
    · rw [if_neg hg]
      left
      rfl
  rw [if_neg h7]
  by_cases h8 : ev.event_type = "run_cancelled"
  · rw [if_pos h8]
    by_cases hg : st.processedTasks.contains ev.task_id = true
    · rw [if_pos hg]
      exact Or.inr ⟨t, ht, hc⟩
    · rw [if_neg hg]
      left
      rfl
  rw [if_neg h8]
  by_cases h9 : ev.event_type = "run_failed"
  · rw [if_pos h9]
    by_cases hg : st.processedTasks.contains ev.task_id = true
    · rw [if_pos hg]
      exact Or.inr ⟨t, ht, hc⟩
    · rw [if_neg hg]
      left
      rfl
  rw [if_neg h9]
  exact Or.inr ⟨t, ht, hc⟩

end MultiAgent

namespace MultiAgent

open JsVal

/-- C1 counterexample: registered sub-agent task `"t"` is already complete
(`is_complete = true`, empty ledger), yet a later `tool_action_started`
event for `"t"` adds a ToolCall to it — completion is not terminal for the
task's fields. -/
theorem C1_counterexample :
    ((getKey regSampleState.subAgentProgress "t").map
      (fun p => (p.is_complete, p.tool_calls.length))) = some (true, 0) ∧
    ((getKey (handleWSMessage (startedEventC "t") regSampleState).subAgentProgress "t").map
      (fun p => (p.is_complete, p.tool_calls.length))) = some (true, 1) :=
  ⟨rfl, rfl⟩

/-- C1 (amended): `is_complete` itself is monotone — no event moves a task
whose `is_complete` is `true` back to `false`, registry entries are never
removed, and the live main progress is either cleared to `null` or keeps
`is_complete = true`; but other fields of a completed Task Progress may
still change (see the counterexample). -/
theorem C1_is_complete_monotone (ev : AgentEvent) (st : WSState) :
    (∀ id p, getKey st.subAgentProgress id = some p → p.is_complete = true →
      ∃ p', getKey (handleWSMessage ev st).subAgentProgress id = some p' ∧
        p'.is_complete = true) ∧
    (∀ t, st.currentThinking = some t → t.is_complete = true →
      (handleWSMessage ev st).currentThinking = none ∨
      ∃ t', (handleWSMessage ev st).currentThinking = some t' ∧ t'.is_complete = true) := by
  by_cases hroute : (getKey st.subAgentProgress ev.task_id).isSome = true
  · have h1 : handleWSMessage ev st = subAgentBranch ev st := by
      simp [handleWSMessage, hroute]
    rw [h1]
    refine ⟨fun id p hget hc => subAgentBranch_complete_preserved ev st id p hget hc, ?_⟩
    intro t ht hc
    exact Or.inr ⟨t, by rw [subAgentBranch_currentThinking]; exact ht, hc⟩
  · unfold handleWSMessage
    rw [if_neg hroute]
    by_cases hbp : ev.event_type = "batch_progress"
    · rw [if_pos hbp]
      dsimp only
      constructor
      · intro id p hget hc
        split_ifs <;> exact ⟨p, hget, hc⟩
      · intro t ht hc
        right
        split_ifs <;> exact ⟨t, ht, hc⟩
    · rw [if_neg hbp]
      by_cases hbc : ev.event_type = "batch_completed"
      · rw [if_pos hbc]
        exact ⟨fun id p hget hc => ⟨p, hget, hc⟩, fun t ht hc => Or.inr ⟨t, ht, hc⟩⟩
      · rw [if_neg hbc]
        exact ⟨fun id p hget hc => ⟨p, mainBranch_getKey_present ev st id p hget, hc⟩,
               fun t ht hc => mainBranch_thinking_monotone ev st t ht hc⟩

/-- Witness for C1 (amended) at a concrete input: after the late started
event, task `"t"`'s entry still has `is_complete = true`. -/
theorem C1_is_complete_monotone_witness :
    ∃ p', getKey (handleWSMessage (startedEventC "t") regSampleState).subAgentProgress "t" =
      some p' ∧ p'.is_complete = true :=
  (C1_is_complete_monotone (startedEventC "t") regSampleState).1 "t"
    { task_id := "t", tool_calls := [], is_complete := true, error := some (.str "e1") } rfl rfl

end MultiAgent

namespace MultiAgent

open JsVal

/-- C2 counterexample: task `"t"` is registered AND already in the
Idempotency Guard set, yet a second `run_failed` event still overwrites
its `error` from `"e1"` to `"e2"` — the guard is not checked in the
sub-agent scope. -/
theorem C2_counterexample :
    regSampleState.processedTasks.contains "t" = true ∧
    ((getKey regSampleState.subAgentProgress "t").map (fun p => p.error)) =
      some (some (.str "e1")) ∧
    ((getKey (handleWSMessage { task_id := "t", event_type := "run_failed", error := .str "e2" }
        regSampleState).subAgentProgress "t").map (fun p => p.error)) =
      some (some (.str "e2")) :=
  ⟨rfl, rfl, rfl⟩

/-- C2 (amended): the Idempotency Guard is checked before terminal events
only in the main-task scope (where a guarded event changes no state); in
the sub-agent scope terminal events are applied unconditionally —
re-applying their effect on duplicates — and the task id is (re)inserted
into the guard set. -/
theorem C2_guard_main_scope_only :
    (∀ (ev : AgentEvent) (st : WSState),
      st.processedTasks.contains ev.task_id = true →
      getKey st.subAgentProgress ev.task_id = none →
      (ev.event_type = "agent_output" ∨ ev.event_type = "run_cancelled" ∨
        ev.event_type = "run_failed") →
      handleWSMessage ev st = st) ∧
    (∀ (ev : AgentEvent) (st : WSState) (p : ThinkingProgress),
      getKey st.subAgentProgress ev.task_id = some p →
      ((ev.event_type = "agent_output" →
        getKey (handleWSMessage ev st).subAgentProgress ev.task_id =
          some { p with is_complete := true, final_output := some ev.data }) ∧
       (ev.event_type = "run_cancelled" →
        getKey (handleWSMessage ev st).subAgentProgress ev.task_id =
          some { p with is_complete := true,
                        error := some (JsVal.str "Task cancelled by user") }) ∧
       (ev.event_type = "run_failed" →
        getKey (handleWSMessage ev st).subAgentProgress ev.task_id =
          some { p with is_complete := true,
                        error := some (if ev.error.truthy then ev.error
                                       else JsVal.str "Agent failed to complete the task") }) ∧
       ((ev.event_type = "agent_output" ∨ ev.event_type = "run_cancelled" ∨
         ev.event_type = "run_failed") →
        (handleWSMessage ev st).processedTasks.contains ev.task_id = true))) := by
  constructor
  · intro ev st hguard hroute htype
    have hr : ¬((getKey st.subAgentProgress ev.task_id).isSome = true) := by simp [hroute]
    have hg' : ev.task_id ∈ st.processedTasks := by simpa using hguard
    rcases htype with h | h | h <;>
      simp [handleWSMessage, mainBranch, hr, h, hg']
  · intro ev st p hget
    have hroute : (getKey st.subAgentProgress ev.task_id).isSome = true := by
      simp [hget]
    have h1 : handleWSMessage ev st = subAgentBranch ev st := by
      simp [handleWSMessage, hroute]
    refine ⟨?_, ?_, ?_, ?_⟩
    · intro h
      rw [h1]
      unfold subAgentBranch
      rw [if_neg (by rw [h]; decide), if_neg (by rw [h]; decide), if_neg (by rw [h]; decide),
          if_neg (by rw [h]; decide), if_pos h]
      dsimp only
      rw [updateSubAgent_getKey_self, hget]
      rfl
    · intro h
      rw [h1]
      unfold subAgentBranch
      rw [if_neg (by rw [h]; decide), if_neg (by rw [h]; decide), if_neg (by rw [h]; decide),
          if_neg (by rw [h]; decide), if_neg (by rw [h]; decide), if_pos h]
      dsimp only
      rw [updateSubAgent_getKey_self, hget]
      rfl
    · intro h
      rw [h1]
      unfold subAgentBranch
      rw [if_neg (by rw [h]; decide), if_neg (by rw [h]; decide), if_neg (by rw [h]; decide),
          if_neg (by rw [h]; decide), if_neg (by rw [h]; decide), if_neg (by rw [h]; decide),
          if_pos h]
      dsimp only
      rw [updateSubAgent_getKey_self, hget]
      rfl
    · intro htype
      rw [h1]
      unfold subAgentBranch
      rcases htype with h | h | h
      · rw [if_neg (by rw [h]; decide), if_neg (by rw [h]; decide), if_neg (by rw [h]; decide),
            if_neg (by rw [h]; decide), if_pos h]
        dsimp only
        exact addProcessed_contains_self _ _
      · rw [if_neg (by rw [h]; decide), if_neg (by rw [h]; decide), if_neg (by rw [h]; decide),
            if_neg (by rw [h]; decide), if_neg (by rw [h]; decide), if_pos h]
        dsimp only
        exact addProcessed_contains_self _ _
      · rw [if_neg (by rw [h]; decide), if_neg (by rw [h]; decide), if_neg (by rw [h]; decide),
            if_neg (by rw [h]; decide), if_neg (by rw [h]; decide), if_neg (by rw [h]; decide),
            if_pos h]
        dsimp only
        exact addProcessed_contains_self _ _

/-- Witness for C2 (amended): a guarded `run_cancelled` for an
unregistered task is a no-op, while a `run_failed` for registered `"t"`
rewrites the stored error. -/
theorem C2_guard_main_scope_only_witness :
    handleWSMessage { task_id := "x", event_type := "run_cancelled" }
      { mainSampleState with processedTasks := ["x"] } =
      { mainSampleState with processedTasks := ["x"] } ∧
    getKey (handleWSMessage { task_id := "t", event_type := "run_failed", error := .str "e2" }
        regSampleState).subAgentProgress "t" =
      some { task_id := "t", tool_calls := [], is_complete := true,
             error := some (.str "e2") } := by
  constructor
  · exact C2_guard_main_scope_only.1 _ _ rfl rfl (Or.inr (Or.inl rfl))
  · have h2 := (C2_guard_main_scope_only.2
      { task_id := "t", event_type := "run_failed", error := .str "e2" } regSampleState
      { task_id := "t", tool_calls := [], is_complete := true, error := some (.str "e1") }
      rfl).2.2.1 rfl
    rw [h2]
    rfl

end MultiAgent

namespace MultiAgent

open JsVal

/-- The ledger update applied by a main-scope `started` event to the
(possibly freshly created) progress. -/
def startedUpdate (base : ThinkingProgress) (toolCall : JsVal) : ThinkingProgress :=
  { base with tool_calls := setKey base.tool_calls (jsKey (toolCall.dot "id")) (startedEntry toolCall) }

theorem mainBranch_started_thinking (ev : AgentEvent) (st : WSState)
    (htype : ev.event_type = "progress_update_tool_action_started")
    (htc : ((ev.data.dot "args").idx0).truthy = true) :
    (mainBranch ev st).currentThinking =
      some (startedUpdate (st.currentThinking.getD (emptyProgress ev.task_id))
        ((ev.data.dot "args").idx0)) := by
  unfold mainBranch
  rw [if_pos htype]
  try dsimp only
  rw [if_pos htc]
  rfl

/-- The ledger merge applied by a main-scope `completed` event. -/
def completedUpdate (ev : AgentEvent) (p : ThinkingProgress) : ThinkingProgress :=
  let key := jsKey (((ev.data.dot "result").dot "tool_call").dot "id")
  let out := (ev.data.dot "result").dot "output_data"
  { p with tool_calls := mergeCompleted p.tool_calls key out }

theorem mainBranch_completed_thinking (ev : AgentEvent) (st : WSState)
    (htype : ev.event_type = "progress_update_tool_action_completed")
    (htc : (((ev.data.dot "result")).dot "tool_call").truthy = true) :
    (mainBranch ev st).currentThinking = st.currentThinking.map (completedUpdate ev) := by
  unfold mainBranch
  simp only [htype]
  rw [if_neg (by decide), if_pos trivial]
  try dsimp only
  rw [if_pos htc]
  split_ifs
  · rcases harr : ((ev.data.dot "result").dot "output_data").asArr with _ | ids <;>
      simp only [harr, updateThinking_currentThinking] <;> cases st.currentThinking <;> rfl
  · simp only [updateThinking_currentThinking]
    cases st.currentThinking <;> rfl

/-- The ledger merge applied by a main-scope `failed` event. -/
def failedUpdate (ev : AgentEvent) (p : ThinkingProgress) : ThinkingProgress :=
  let key := jsKey (((ev.data.dot "args").idx0).dot "id")
  { p with tool_calls := mergeFailed p.tool_calls key ev.error }

theorem mainBranch_failed_thinking (ev : AgentEvent) (st : WSState)
    (htype : ev.event_type = "progress_update_tool_action_failed")
    (htc : ((ev.data.dot "args").idx0).truthy = true) :
    (mainBranch ev st).currentThinking = st.currentThinking.map (failedUpdate ev) := by
  unfold mainBranch
  simp only [htype]
  rw [if_neg (by decide), if_neg (by decide), if_pos trivial]
  try dsimp only
  rw [if_pos htc]
  simp only [updateThinking_currentThinking]
  cases st.currentThinking <;> rfl

end MultiAgent

namespace MultiAgent

open JsVal

/-- A main-scope `tool_action_completed` event whose tool-call id `"b"`
never appeared in any `started` event. -/
def completedEventB : AgentEvent :=
  { task_id := "m", event_type := "progress_update_tool_action_completed",
    data := .obj [("result", .obj [("tool_call", .obj [("id", .str "b"),
      ("function", .obj [("name", .str "search")])]), ("output_data", .str "out")])] }

/-- C3 counterexample: the main task has an empty ledger, yet a
`completed` event for the never-started id `"b"` creates a partial
ToolCall entry (status/result only) instead of leaving the Task Progress
unchanged. -/
theorem C3_counterexample :
    (mainSampleState.currentThinking.map (fun p => p.tool_calls.length)) = some 0 ∧
    ((handleWSMessage completedEventB mainSampleState).currentThinking.map
      (fun p => p.tool_calls.length)) = some 1 ∧
    ((handleWSMessage completedEventB mainSampleState).currentThinking.bind
      (fun p => getKey p.tool_calls "b")) =
      some { status := some .completed, result := some (.str "out") } :=
  ⟨rfl, rfl, rfl⟩

/-- C3 (amended): a `completed`/`failed` event is a no-op only when the
Task Progress is `null` (or the payload carries no tool call); when the
progress exists and the id is unknown, the event creates a new partial
ToolCall entry carrying only the written fields (`status`+`result`, resp.
`status`+`error`). -/
theorem C3_unknown_id_creates_entry :
    (∀ (ev : AgentEvent) (st : WSState),
      getKey st.subAgentProgress ev.task_id = none →
      (ev.event_type = "progress_update_tool_action_completed" ∨
       ev.event_type = "progress_update_tool_action_failed") →
      st.currentThinking = none →
      (handleWSMessage ev st).currentThinking = none) ∧
    (∀ (ev : AgentEvent) (st : WSState) (p : ThinkingProgress),
      getKey st.subAgentProgress ev.task_id = none →
      ev.event_type = "progress_update_tool_action_completed" →
      st.currentThinking = some p →
      (((ev.data.dot "result")).dot "tool_call").truthy = true →
      getKey p.tool_calls (jsKey (((ev.data.dot "result").dot "tool_call").dot "id")) = none →
      ∃ p', (handleWSMessage ev st).currentThinking = some p' ∧
        getKey p'.tool_calls (jsKey (((ev.data.dot "result").dot "tool_call").dot "id")) =
          some { status := some TCStatus.completed,
                 result := some ((ev.data.dot "result").dot "output_data") }) ∧
    (∀ (ev : AgentEvent) (st : WSState) (p : ThinkingProgress),
      getKey st.subAgentProgress ev.task_id = none →
      ev.event_type = "progress_update_tool_action_failed" →
      st.currentThinking = some p →
      ((ev.data.dot "args").idx0).truthy = true →
      getKey p.tool_calls (jsKey (((ev.data.dot "args").idx0).dot "id")) = none →
      ∃ p', (handleWSMessage ev st).currentThinking = some p' ∧
        getKey p'.tool_calls (jsKey (((ev.data.dot "args").idx0).dot "id")) =
          some { status := some TCStatus.failed, error := some ev.error }) := by
  refine ⟨?_, ?_, ?_⟩
  · intro ev st hroute htype ht
    rcases htype with h | h
    · rw [handleWSMessage_main ev st hroute (by rw [h]; decide) (by rw [h]; decide)]
      by_cases htc : (((ev.data.dot "result")).dot "tool_call").truthy = true
      · rw [mainBranch_completed_thinking ev st h htc, ht]
        rfl
      · unfold mainBranch
        simp only [h]
        rw [if_neg (by decide), if_pos trivial]
        try dsimp only
        rw [if_neg htc]
        exact ht
    · rw [handleWSMessage_main ev st hroute (by rw [h]; decide) (by rw [h]; decide)]
      by_cases htc : ((ev.data.dot "args").idx0).truthy = true
      · rw [mainBranch_failed_thinking ev st h htc, ht]
        rfl
      · unfold mainBranch
        simp only [h]
        rw [if_neg (by decide), if_neg (by decide), if_pos trivial]
        try dsimp only
        rw [if_neg htc]
        exact ht
  · intro ev st p hroute htype ht htc hunknown
    rw [handleWSMessage_main ev st hroute (by rw [htype]; decide) (by rw [htype]; decide),
        mainBranch_completed_thinking ev st htype htc, ht]
    refine ⟨completedUpdate ev p, rfl, ?_⟩
    simp [completedUpdate, mergeCompleted, hunknown, getKey_setKey_self]
  · intro ev st p hroute htype ht htc hunknown
    rw [handleWSMessage_main ev st hroute (by rw [htype]; decide) (by rw [htype]; decide),
        mainBranch_failed_thinking ev st htype htc, ht]
    refine ⟨failedUpdate ev p, rfl, ?_⟩
    simp [failedUpdate, mergeFailed, hunknown, getKey_setKey_self]

/-- Witness for C3 (amended) at the concrete inputs of the
counterexample state. -/
theorem C3_unknown_id_creates_entry_witness :
    ∃ p', (handleWSMessage completedEventB mainSampleState).currentThinking = some p' ∧
      getKey p'.tool_calls "b" =
        some { status := some TCStatus.completed, result := some (.str "out") } :=
  C3_unknown_id_creates_entry.2.1 completedEventB mainSampleState
    { task_id := "m", tool_calls := [], is_complete := false } rfl rfl rfl rfl rfl

end MultiAgent

namespace MultiAgent

open JsVal

/-- C4 counterexample: the main task's ToolCall `"c"` is `completed`, yet
a later `started` event for the same id moves it back to `started` — the
status is not monotone. -/
theorem C4_counterexample :
    ((mainSampleState2.currentThinking.bind (fun p => getKey p.tool_calls "c")).map
      (fun e => e.status)) = some (some TCStatus.completed) ∧
    (((handleWSMessage (startedEventC "m") mainSampleState2).currentThinking.bind
      (fun p => getKey p.tool_calls "c")).map (fun e => e.status)) =
      some (some TCStatus.started) :=
  ⟨rfl, rfl⟩

/-- C4 (amended): ToolCall status is last-writer-wins, not monotone: a
`started` event overwrites the whole entry with status `started`, and
`completed`/`failed` events set their status unconditionally, regardless
of the entry's previous status. -/
theorem C4_status_last_writer_wins :
    (∀ (ev : AgentEvent) (st : WSState),
      getKey st.subAgentProgress ev.task_id = none →
      ev.event_type = "progress_update_tool_action_started" →
      ((ev.data.dot "args").idx0).truthy = true →
      ∃ p', (handleWSMessage ev st).currentThinking = some p' ∧
        getKey p'.tool_calls (jsKey (((ev.data.dot "args").idx0).dot "id")) =
          some (startedEntry ((ev.data.dot "args").idx0))) ∧
    (∀ (ev : AgentEvent) (st : WSState) (p : ThinkingProgress),
      getKey st.subAgentProgress ev.task_id = none →
      ev.event_type = "progress_update_tool_action_completed" →
      st.currentThinking = some p →
      (((ev.data.dot "result")).dot "tool_call").truthy = true →
      ∃ p', (handleWSMessage ev st).currentThinking = some p' ∧
        ((getKey p'.tool_calls (jsKey (((ev.data.dot "result").dot "tool_call").dot "id"))).map
          (fun e => e.status)) = some (some TCStatus.completed)) ∧
    (∀ (ev : AgentEvent) (st : WSState) (p : ThinkingProgress),
      getKey st.subAgentProgress ev.task_id = none →
      ev.event_type = "progress_update_tool_action_failed" →
      st.currentThinking = some p →
      ((ev.data.dot "args").idx0).truthy = true →
      ∃ p', (handleWSMessage ev st).currentThinking = some p' ∧
        ((getKey p'.tool_calls (jsKey (((ev.data.dot "args").idx0).dot "id"))).map
          (fun e => e.status)) = some (some TCStatus.failed)) := by
  refine ⟨?_, ?_, ?_⟩
  · intro ev st hroute htype htc
    rw [handleWSMessage_main ev st hroute (by rw [htype]; decide) (by rw [htype]; decide),
        mainBranch_started_thinking ev st htype htc]
    refine ⟨_, rfl, ?_⟩
    simp [startedUpdate, getKey_setKey_self]
  · intro ev st p hroute htype ht htc
    rw [handleWSMessage_main ev st hroute (by rw [htype]; decide) (by rw [htype]; decide),
        mainBranch_completed_thinking ev st htype htc, ht]
    refine ⟨completedUpdate ev p, rfl, ?_⟩
    simp [completedUpdate, mergeCompleted, getKey_setKey_self]
  · intro ev st p hroute htype ht htc
    rw [handleWSMessage_main ev st hroute (by rw [htype]; decide) (by rw [htype]; decide),
        mainBranch_failed_thinking ev st htype htc, ht]
    refine ⟨failedUpdate ev p, rfl, ?_⟩
    simp [failedUpdate, mergeFailed, getKey_setKey_self]

/-- Witness for C4 (amended): the started event that overwrites the
completed entry `"c"` yields status `started` at the concrete state. -/
theorem C4_status_last_writer_wins_witness :
    ∃ p', (handleWSMessage (startedEventC "m") mainSampleState2).currentThinking = some p' ∧
      getKey p'.tool_calls (jsKey ((((startedEventC "m").data.dot "args").idx0).dot "id")) =
        some (startedEntry (((startedEventC "m").data.dot "args").idx0)) :=
  C4_status_last_writer_wins.1 (startedEventC "m") mainSampleState2 rfl rfl rfl

end MultiAgent
